import Mathlib

/-!
Verification of `src/server/services/mlTrainer.py` (Kraken-Autotrade).

Shallow embedding notes:
- Python numbers are modelled as rationals (`ℚ`); no claim here depends on
  binary floating-point rounding.
- A Python expression that may raise is modelled as an `Option`: `none` means
  the exception was raised at that step.
- A JSON feature map is an association list `List (String × JVal)`; a value
  on which `float(...)` raises is `JVal.nonNum`.
- The scikit-learn pieces the script calls (`TimeSeriesSplit`,
  `precision_score` etc. with `zero_division=0`) are embedded from their
  documented/source semantics; the random-forest classifier itself is kept
  abstract as a fit-then-predict function, since no claim depends on what it
  predicts.
-/

set_option autoImplicit false

namespace MLTrainer

/-- A JSON value appearing in a feature map, as far as `float(...)` is
concerned: either numeric-convertible (carrying its numeric value) or a value
on which `float` raises. -/
inductive JVal where
  | num (q : ℚ)
  | nonNum
deriving DecidableEq

/-- A feature map: association list from field name to value
(first binding wins, like a Python dict lookup). -/
def FeatureMap : Type := List (String × JVal)

instance : DecidableEq FeatureMap := by
  unfold FeatureMap; infer_instance

/-- `featuresJson` field of a sample: a native mapping, a text-encoded mapping
(carrying its `json.loads` result, `none` when the parse raises), or absent
(Python `sample.get("featuresJson", {})` then yields `{}`). -/
inductive FeaturesField where
  | map (m : FeatureMap)
  | text (parsed : Option FeatureMap)
  | absent
deriving DecidableEq

/-- `labelWin` value as far as `int(...)` is concerned: convertible (carrying
the integer) or a value on which `int` raises. -/
inductive LabelV where
  | intv (n : ℤ)
  | badv
deriving DecidableEq

/-- One raw sample record from the samples file. -/
structure Sample where
  featuresJson : FeaturesField
  isComplete : Bool
  labelWin : Option LabelV
deriving DecidableEq

/-- Python dict `.get`: first binding for the key, if any. -/
def fmGet : FeatureMap → String → Option JVal
  | [], _ => none
  | (k, v) :: rest, name => if k = name then some v else fmGet rest name

/-- `float(v)`: the numeric value, or `none` when `float` raises. -/
def floatOf : JVal → Option ℚ
  | .num q => some q
  | .nonNum => none

/-- `float(features.get(name, default))`: present value coerced (may raise),
absent field replaced by the (numeric) default. -/
def getFeat (m : FeatureMap) (name : String) (d : ℚ) : Option ℚ :=
  match fmGet m name with
  | some v => floatOf v
  | none => some d

/-- `Option.bind`, written out (kept as its own definition so that the
16-step chains below stay cheap for the compiler). `none` models a raised
exception, which aborts the chain. -/
def obind {A B : Type} (a : Option A) (f : A → Option B) : Option B :=
  match a with
  | none => none
  | some x => f x

theorem obind_eq_bind {A B : Type} (a : Option A) (f : A → Option B) :
    obind a f = a.bind f := by
  cases a <;> rfl

/-- The 16 feature fields, in source order, each with its default
(mlTrainer.py lines 26-43). -/
def featureSpec : List (String × ℚ) :=
  [("rsi14", 50), ("macdLine", 0), ("macdSignal", 0), ("macdHist", 0),
   ("bbUpper", 0), ("bbMiddle", 0), ("bbLower", 0), ("atr14", 0),
   ("ema12", 0), ("ema26", 0), ("volume24hChange", 0), ("priceChange1h", 0),
   ("priceChange4h", 0), ("priceChange24h", 0), ("spreadPct", 0),
   ("confidence", 50)]

/-- The 16-entry feature list built in `extract_features_from_sample`
(lines 26-43): each entry is `float(features.get(name, default))`, and any
raise aborts the whole list. -/
def featVector (m : FeatureMap) : Option (List ℚ) :=
  obind (getFeat m "rsi14" 50) fun x0 =>
  obind (getFeat m "macdLine" 0) fun x1 =>
  obind (getFeat m "macdSignal" 0) fun x2 =>
  obind (getFeat m "macdHist" 0) fun x3 =>
  obind (getFeat m "bbUpper" 0) fun x4 =>
  obind (getFeat m "bbMiddle" 0) fun x5 =>
  obind (getFeat m "bbLower" 0) fun x6 =>
  obind (getFeat m "atr14" 0) fun x7 =>
  obind (getFeat m "ema12" 0) fun x8 =>
  obind (getFeat m "ema26" 0) fun x9 =>
  obind (getFeat m "volume24hChange" 0) fun x10 =>
  obind (getFeat m "priceChange1h" 0) fun x11 =>
  obind (getFeat m "priceChange4h" 0) fun x12 =>
  obind (getFeat m "priceChange24h" 0) fun x13 =>
  obind (getFeat m "spreadPct" 0) fun x14 =>
  obind (getFeat m "confidence" 50) fun x15 =>
  some [x0, x1, x2, x3, x4, x5, x6, x7, x8, x9, x10, x11, x12, x13, x14, x15]

/-- The inline 16-entry feature row built inside `predict` (lines 151-168):
textually a second copy of the same names and defaults in the source. -/
def predictVector (m : FeatureMap) : Option (List ℚ) :=
  obind (getFeat m "rsi14" 50) fun x0 =>
  obind (getFeat m "macdLine" 0) fun x1 =>
  obind (getFeat m "macdSignal" 0) fun x2 =>
  obind (getFeat m "macdHist" 0) fun x3 =>
  obind (getFeat m "bbUpper" 0) fun x4 =>
  obind (getFeat m "bbMiddle" 0) fun x5 =>
  obind (getFeat m "bbLower" 0) fun x6 =>
  obind (getFeat m "atr14" 0) fun x7 =>
  obind (getFeat m "ema12" 0) fun x8 =>
  obind (getFeat m "ema26" 0) fun x9 =>
  obind (getFeat m "volume24hChange" 0) fun x10 =>
  obind (getFeat m "priceChange1h" 0) fun x11 =>
  obind (getFeat m "priceChange4h" 0) fun x12 =>
  obind (getFeat m "priceChange24h" 0) fun x13 =>
  obind (getFeat m "spreadPct" 0) fun x14 =>
  obind (getFeat m "confidence" 50) fun x15 =>
  some [x0, x1, x2, x3, x4, x5, x6, x7, x8, x9, x10, x11, x12, x13, x14, x15]

/-- `features = sample.get("featuresJson", {})`, then `json.loads` when it is
text (line 22-24). -/
def featuresOf : FeaturesField → Option FeatureMap
  | .map m => some m
  | .text r => r
  | .absent => some []

/-- `extract_features_from_sample` (lines 20-43): resolve the `featuresJson`
field, then build the 16-entry vector; any raise propagates. -/
def extract_features_from_sample (s : Sample) : Option (List ℚ) :=
  (featuresOf s.featuresJson).bind featVector

/-- Generic fold of `getFeat` over a name/default table, used to reason about
the explicit 16-entry chains by induction. -/
def vecOf (m : FeatureMap) : List (String × ℚ) → Option (List ℚ)
  | [] => some []
  | (name, d) :: rest =>
      obind (getFeat m name d) fun x =>
      obind (vecOf m rest) fun xs =>
      some (x :: xs)

theorem featVector_eq_vecOf (m : FeatureMap) :
    featVector m = vecOf m featureSpec := by
  unfold featVector
  simp only [featureSpec, vecOf]
  cases getFeat m "rsi14" 50 with
  | none => rfl
  | some x0 =>
  cases getFeat m "macdLine" 0 with
  | none => rfl
  | some x1 =>
  cases getFeat m "macdSignal" 0 with
  | none => rfl
  | some x2 =>
  cases getFeat m "macdHist" 0 with
  | none => rfl
  | some x3 =>
  cases getFeat m "bbUpper" 0 with
  | none => rfl
  | some x4 =>
  cases getFeat m "bbMiddle" 0 with
  | none => rfl
  | some x5 =>
  cases getFeat m "bbLower" 0 with
  | none => rfl
  | some x6 =>
  cases getFeat m "atr14" 0 with
  | none => rfl
  | some x7 =>
  cases getFeat m "ema12" 0 with
  | none => rfl
  | some x8 =>
  cases getFeat m "ema26" 0 with
  | none => rfl
  | some x9 =>
  cases getFeat m "volume24hChange" 0 with
  | none => rfl
  | some x10 =>
  cases getFeat m "priceChange1h" 0 with
  | none => rfl
  | some x11 =>
  cases getFeat m "priceChange4h" 0 with
  | none => rfl
  | some x12 =>
  cases getFeat m "priceChange24h" 0 with
  | none => rfl
  | some x13 =>
  cases getFeat m "spreadPct" 0 with
  | none => rfl
  | some x14 =>
  cases getFeat m "confidence" 50 with
  | none => rfl
  | some x15 => rfl

theorem predictVector_eq_featVector (m : FeatureMap) :
    predictVector m = featVector m := rfl

theorem vecOf_length (m : FeatureMap) (spec : List (String × ℚ))
    (v : List ℚ) (h : vecOf m spec = some v) : v.length = spec.length := by
  induction spec generalizing v with
  | nil =>
    simp only [vecOf, Option.some.injEq] at h
    subst h; rfl
  | cons hd tl ih =>
    obtain ⟨name, d⟩ := hd
    simp only [vecOf] at h
    cases hg : getFeat m name d with
    | none => rw [hg] at h; simp [obind] at h
    | some x =>
      rw [hg] at h
      cases hr : vecOf m tl with
      | none => rw [hr] at h; simp [obind] at h
      | some xs =>
        rw [hr] at h
        simp only [obind, Option.some.injEq] at h
        subst h
        simp [ih xs hr]

theorem vecOf_default (m : FeatureMap) (spec : List (String × ℚ))
    (v : List ℚ) (h : vecOf m spec = some v) (i : ℕ) (name : String) (d : ℚ)
    (hspec : spec.get? i = some (name, d)) (habs : fmGet m name = none) :
    v.get? i = some d := by
  induction spec generalizing v i with
  | nil => simp at hspec
  | cons hd tl ih =>
    obtain ⟨nm, dd⟩ := hd
    simp only [vecOf] at h
    cases hg : getFeat m nm dd with
    | none => rw [hg] at h; simp [obind] at h
    | some x =>
      rw [hg] at h
      cases hr : vecOf m tl with
      | none => rw [hr] at h; simp [obind] at h
      | some xs =>
        rw [hr] at h
        simp only [obind, Option.some.injEq] at h
        subst h
        cases i with
        | zero =>
          simp only [List.get?_cons_zero, Option.some.injEq, Prod.mk.injEq] at hspec
          obtain ⟨rfl, rfl⟩ := hspec
          have hgd : getFeat m nm dd = some dd := by
            unfold getFeat; rw [habs]
          rw [hgd] at hg
          simp only [Option.some.injEq] at hg
          subst hg
          rfl
        | succ n =>
          simp only [List.get?_cons_succ] at hspec
          simpa using ih xs hr n hspec

/-! ### scikit-learn pieces used by `train`

`TimeSeriesSplit` and the four metric functions (called with
`zero_division=0`) are embedded from scikit-learn's documented semantics.
The classifier is abstracted: `Fit` takes the training rows and labels and
yields a prediction function, which is all `train` observes of it. -/

/-- One walk-forward fold: index lists for the training and test slices. -/
structure Fold where
  trainIdx : List ℕ
  testIdx : List ℕ
deriving DecidableEq

/-- `TimeSeriesSplit(n_splits).split(X)` for `len(X) = n_samples` (defaults:
no gap, no max_train_size): `test_size = n_samples // (n_splits + 1)`, fold
`i` tests `[n_samples - (n_splits - i) * test_size, ... + test_size)` and
trains on everything before it. -/
def tssFolds (n_splits n_samples : ℕ) : List Fold :=
  let test_size := n_samples / (n_splits + 1)
  (List.range n_splits).map fun i =>
    let test_start := n_samples - (n_splits - i) * test_size
    ⟨List.range test_start, (List.range test_size).map fun j => test_start + j⟩

/-- True positives for positive label 1 (pairs aligned positionally). -/
def tpCount (y_true y_pred : List ℤ) : ℕ :=
  (y_true.zip y_pred).countP fun p => p.1 == 1 && p.2 == 1

/-- False positives. -/
def fpCount (y_true y_pred : List ℤ) : ℕ :=
  (y_true.zip y_pred).countP fun p => !(p.1 == 1) && p.2 == 1

/-- False negatives. -/
def fnCount (y_true y_pred : List ℤ) : ℕ :=
  (y_true.zip y_pred).countP fun p => p.1 == 1 && !(p.2 == 1)

/-- `accuracy_score`: fraction of positions where prediction equals truth. -/
def accuracy_score (y_true y_pred : List ℤ) : ℚ :=
  ((y_true.zip y_pred).countP fun p => p.1 == p.2) / (y_true.length : ℚ)

/-- `precision_score(..., zero_division=0)`: TP over predicted positives,
0 when there are no predicted positives. -/
def precision_score (y_true y_pred : List ℤ) : ℚ :=
  let pp := (y_true.zip y_pred).countP fun p => p.2 == 1
  if pp = 0 then 0 else (tpCount y_true y_pred : ℚ) / (pp : ℚ)

/-- `recall_score(..., zero_division=0)`: TP over actual positives,
0 when there are no actual positives. -/
def recall_score (y_true y_pred : List ℤ) : ℚ :=
  let ap := (y_true.zip y_pred).countP fun p => p.1 == 1
  if ap = 0 then 0 else (tpCount y_true y_pred : ℚ) / (ap : ℚ)

/-- `f1_score(..., zero_division=0)`: `2*TP / (2*TP + FP + FN)`, 0 when the
denominator is 0. -/
def f1_score (y_true y_pred : List ℤ) : ℚ :=
  let den := 2 * tpCount y_true y_pred + fpCount y_true y_pred
    + fnCount y_true y_pred
  if den = 0 then 0 else (2 * tpCount y_true y_pred : ℚ) / (den : ℚ)

/-- `np.mean` of a list of rationals. -/
def mean (l : List ℚ) : ℚ := l.sum / (l.length : ℚ)

/-- The abstract classifier: fitting on rows/labels yields a per-row
prediction function (`model.fit(X_train, y_train)` then
`model.predict(row)`).  `train` never inspects the model beyond this. -/
abbrev Fit := List (List ℚ) → List ℤ → List ℚ → ℤ

/-! ### `train` -/

/-- The samples-file read in `train` (lines 58-59): `open` plus `json.load`,
both outside every exception handler.  `fail` covers an unreadable file and
invalid JSON alike. -/
inductive FileRead where
  | fail
  | ok (samples : List Sample)

/-- The metrics object built on lines 123-130 and written to the status
file. -/
structure Metrics where
  accuracy : ℚ
  precision : ℚ
  «recall» : ℚ
  f1 : ℚ
  nSamples : ℕ
  trainedAt : String
deriving DecidableEq

/-- How one `train` invocation ends: an uncaught exception, a structured
failure record (`{"success": false, "error": ...}` plus `sys.exit(1)`), or a
structured success record with its metrics. -/
inductive TrainResult where
  | raised
  | failed (error : String)
  | succeeded (metrics : Metrics)
deriving DecidableEq

/-- Process exit code for each `train` ending: an uncaught exception makes
the interpreter exit 1, the failure paths call `sys.exit(1)`, success falls
off the end of the script (exit 0). -/
def exitCodeOf : TrainResult → ℕ
  | .raised => 1
  | .failed _ => 1
  | .succeeded _ => 0

/-- Observable outcome of one `train` invocation: its result plus what was
written to the model artifact (the data the persisted model was fitted on)
and to the status file. -/
structure TrainOut where
  result : TrainResult
  artifact : Option (List (List ℚ) × List ℤ)
  status : Option Metrics
deriving DecidableEq

/-- The filter on line 61: `s.get("isComplete") and s.get("labelWin") is not
None`. -/
def usable (s : Sample) : Bool := s.isComplete && s.labelWin.isSome

/-- `int(v)` on the label value: the integer, or `none` when `int` raises. -/
def labelInt : LabelV → Option ℤ
  | .intv n => some n
  | .badv => none

/-- The loop body on lines 70-77: extract the features, then convert the
label; any exception skips the sample. -/
def vectorizeSample (s : Sample) : Option (List ℚ × ℤ) :=
  obind (extract_features_from_sample s) fun fs =>
  match s.labelWin with
  | none => none
  | some lv => (labelInt lv).map fun l => (fs, l)

/-- `X[idx]` / `y[idx]`: numpy fancy indexing by an index list (indices
produced by `tssFolds` are always in range, so the default is never hit). -/
def sliceAt {A : Type} (d : A) (xs : List A) (idx : List ℕ) : List A :=
  idx.map fun i => (xs.get? i).getD d

/-- Per-fold metrics (lines 89-108): fit on the train slice, predict the
test slice, score with the four sklearn metrics. -/
def foldEval (fit : Fit) (X : List (List ℚ)) (y : List ℤ) (f : Fold) :
    ℚ × ℚ × ℚ × ℚ :=
  let X_train := sliceAt [] X f.trainIdx
  let y_train := sliceAt 0 y f.trainIdx
  let X_test := sliceAt [] X f.testIdx
  let y_test := sliceAt 0 y f.testIdx
  let y_pred := X_test.map (fit X_train y_train)
  (accuracy_score y_test y_pred, precision_score y_test y_pred,
   recall_score y_test y_pred, f1_score y_test y_pred)

/-- `train(samples_path)` (lines 45-135), for one invocation.

Control flow mirrored from the source:
- file open / `json.load` failure: uncaught exception (they sit outside the
  only `try` in `train`, which guards the imports);
- fewer than 50 complete+labeled samples: structured failure, `sys.exit(1)`,
  nothing written (line 63-65);
- `TimeSeriesSplit(n_splits=min(5, len(X) // 20))` raises in its constructor
  when `n_splits <= 1`, and `split` raises when `n_splits + 1 > len(X)`;
  both happen before the artifact write, so nothing is written;
- otherwise: walk-forward evaluation, final fit on all of `X, y`, artifact
  then status file written, success record printed.  `nSamples` is
  `len(complete_samples)` (line 128) and `trainedAt` is the shelled-out UTC
  timestamp, passed in here as `now`. -/
def train (fit : Fit) (now : String) (file : FileRead) : TrainOut :=
  match file with
  | .fail => ⟨.raised, none, none⟩
  | .ok samples =>
    let complete_samples := samples.filter usable
    if complete_samples.length < 50 then
      ⟨.failed ("Not enough samples: " ++ toString complete_samples.length),
        none, none⟩
    else
      let pairs := complete_samples.filterMap vectorizeSample
      let X := pairs.map Prod.fst
      let y := pairs.map Prod.snd
      let n_splits := min 5 (X.length / 20)
      if n_splits ≤ 1 then ⟨.raised, none, none⟩
      else if X.length < n_splits + 1 then ⟨.raised, none, none⟩
      else
        let ms := (tssFolds n_splits X.length).map (foldEval fit X y)
        let metrics : Metrics :=
          ⟨mean (ms.map fun r => r.1), mean (ms.map fun r => r.2.1),
           mean (ms.map fun r => r.2.2.1), mean (ms.map fun r => r.2.2.2),
           complete_samples.length, now⟩
        ⟨.succeeded metrics, some (X, y), some metrics⟩

/-! ### `predict` -/

/-- The loaded model at `predict` time, abstracted to what `predict` does
with it: `model.predict_proba([row])[0]`, `none` when inference raises. -/
abbrev Model := List ℚ → Option (List ℚ)

/-- The record `predict` prints: a score and an optional error field. -/
structure PredictRecord where
  score : ℚ
  error : Option String
deriving DecidableEq

/-- `predict(features_json)` (lines 137-176).

Inputs model the fallible steps: `artifact` is `none` when the model file
does not exist, `some none` when it exists but `pickle.load` (or the file
open) raises, `some (some model)` when it loads; `parse` is the
`json.loads(features_json)` result, `none` when it raises (or yields a
non-mapping, which makes the subsequent `.get` calls raise — same handler).
Every failure inside the `try` is caught and becomes `{score: 0.5, error:
str(e)}`; the caught messages below stand in for Python's `str(e)`. -/
def predict (artifact : Option (Option Model)) (parse : Option FeatureMap) :
    PredictRecord :=
  match artifact with
  | none => ⟨1/2, some "Model not found"⟩
  | some none => ⟨1/2, some "model load exception"⟩
  | some (some model) =>
    match parse with
    | none => ⟨1/2, some "feature map parse exception"⟩
    | some fm =>
      match predictVector fm with
      | none => ⟨1/2, some "non-numeric feature value"⟩
      | some row =>
        match model row with
        | none => ⟨1/2, some "inference exception"⟩
        | some proba =>
          if h : 1 < proba.length then ⟨proba.get ⟨1, h⟩, none⟩
          else ⟨1/2, none⟩

/-- `predict` never calls `sys.exit`; after it returns, the script falls off
the end of `__main__`, so the process exit code is 0 on every `predict`
path. -/
def predictProc (artifact : Option (Option Model))
    (parse : Option FeatureMap) : PredictRecord × ℕ :=
  (predict artifact parse, 0)

/-! ### Concrete data used by witnesses and counterexamples -/

/-- A trivial abstract classifier: always predicts label 0. -/
def fitZero : Fit := fun _ _ _ => 0

/-- A complete, labeled sample whose feature map is absent (every field
defaults) and whose label converts to 0. -/
def goodSample : Sample := ⟨.absent, true, some (.intv 0)⟩

/-- A complete, labeled sample whose feature map has a non-numeric `rsi14`
value, so `float(...)` raises and vectorization drops it. -/
def badSample : Sample := ⟨.map [("rsi14", .nonNum)], true, some (.intv 0)⟩

/-- 51 usable samples, one of which is dropped at vectorization. -/
def aSamples : List Sample := List.replicate 50 goodSample ++ [badSample]

/-- 60 usable samples, 11 of which are dropped at vectorization, leaving 49
vectorized rows. -/
def bSamples : List Sample :=
  List.replicate 49 goodSample ++ List.replicate 11 badSample

/-- 50 usable samples, 31 of which are dropped at vectorization, leaving 19
vectorized rows — fewer than 20, so `min(5, len(X) // 20)` is 0. -/
def cSamples : List Sample :=
  List.replicate 19 goodSample ++ List.replicate 31 badSample

/-- The first fold of `tssFolds 2 40`. -/
def fold0 : Fold := ⟨List.range 14, (List.range 13).map fun j => 14 + j⟩

/-! ### Helper lemmas -/

theorem tssFolds_length (k n : ℕ) : (tssFolds k n).length = k := by
  simp [tssFolds]

theorem countP_zip_snd_le (yt yp : List ℤ) (q : ℤ → Bool) :
    ((yt.zip yp).countP fun p => q p.2) ≤ yp.countP q := by
  induction yt generalizing yp with
  | nil => simp
  | cons a ta ih =>
    cases yp with
    | nil => simp
    | cons b tb =>
      simp only [List.zip_cons_cons, List.countP_cons]
      have := ih tb
      by_cases hq : q b <;> simp [hq] <;> omega

theorem countP_zip_fst_le (yt yp : List ℤ) (q : ℤ → Bool) :
    ((yt.zip yp).countP fun p => q p.1) ≤ yt.countP q := by
  induction yt generalizing yp with
  | nil => simp
  | cons a ta ih =>
    cases yp with
    | nil => simp
    | cons b tb =>
      simp only [List.zip_cons_cons, List.countP_cons]
      have := ih tb
      by_cases hq : q a <;> simp [hq] <;> omega

/-! ### Claims -/

/-- The disjunction of the fallible steps inside `predict`'s `try` block when
the artifact file exists: the artifact load raises, the feature-map parse
raises, a feature value fails `float(...)`, or inference raises. -/
def predictStepFails (load : Option Model) (parse : Option FeatureMap) :
    Prop :=
  load = none ∨ parse = none ∨
    ∃ model fm, load = some model ∧ parse = some fm ∧
      (predictVector fm = none ∨
        ∃ row, predictVector fm = some row ∧ model row = none)

/-- Claim C1: when the model artifact file exists, any failure during
artifact load, feature-map parse, or inference makes `predict` output a
record with score 0.5 and an error field; being a total function into
`PredictRecord`, `predict` always yields a numeric score and never
propagates an exception. -/
theorem predict_failure_falls_back (load : Option Model)
    (parse : Option FeatureMap) (h : predictStepFails load parse) :
    (predict (some load) parse).score = 1/2 ∧
    (predict (some load) parse).error.isSome = true := by
  rcases h with rfl | rfl | ⟨model, fm, rfl, rfl, hv | ⟨row, hv, hm⟩⟩
  · exact ⟨rfl, rfl⟩
  · cases load <;> exact ⟨rfl, rfl⟩
  · simp [predict, hv]
  · simp [predict, hv, hm]

/-- Witness for C1: a concrete failing load (artifact exists, `pickle.load`
raises) produces the 0.5-plus-error record. -/
theorem predict_failure_falls_back_witness :
    predictStepFails (none : Option Model) (some ([] : FeatureMap)) ∧
    (predict (some (none : Option Model)) (some ([] : FeatureMap))).score
        = 1/2 ∧
    (predict (some (none : Option Model))
        (some ([] : FeatureMap))).error.isSome = true :=
  ⟨Or.inl rfl,
    (predict_failure_falls_back none (some ([] : FeatureMap))
      (Or.inl rfl)).1,
    (predict_failure_falls_back none (some ([] : FeatureMap))
      (Or.inl rfl)).2⟩

/-- Claim C2: with fewer than 50 complete+labeled samples, `train` outputs a
structured failure record, exits non-zero, and writes neither the model
artifact nor the status file. -/
theorem train_insufficient_data (fit : Fit) (now : String)
    (samples : List Sample) (h : (samples.filter usable).length < 50) :
    train fit now (.ok samples) =
      ⟨.failed ("Not enough samples: "
          ++ toString (samples.filter usable).length), none, none⟩ ∧
    exitCodeOf (train fit now (.ok samples)).result = 1 := by
  have e : train fit now (.ok samples) =
      ⟨.failed ("Not enough samples: "
          ++ toString (samples.filter usable).length), none, none⟩ := by
    simp [train, h]
  refine ⟨e, ?_⟩
  rw [e]
  rfl

/-- Witness for C2: the empty sample list (0 usable samples). -/
theorem train_insufficient_data_witness :
    (([] : List Sample).filter usable).length < 50 ∧
    train fitZero "t" (.ok []) =
      ⟨.failed ("Not enough samples: "
          ++ toString (([] : List Sample).filter usable).length),
        none, none⟩ :=
  ⟨by decide, (train_insufficient_data fitZero "t" [] (by decide)).1⟩

/-- Counterexample to C3 as stated: on `cSamples` (50 usable samples, 19
surviving vectorization) the computed fold count `min(5, 19 // 20)` is 0 and
is NOT floored to 1 — `TimeSeriesSplit`'s constructor raises, so the
degenerate case is not handled. -/
theorem foldCount_not_floored_cex :
    (cSamples.filter usable).length = 50 ∧
    ((cSamples.filter usable).filterMap vectorizeSample).length = 19 ∧
    min 5 (((cSamples.filter usable).filterMap vectorizeSample).length / 20)
      = 0 ∧
    train fitZero "t" (.ok cSamples) = ⟨.raised, none, none⟩ := by
  decide

/-- Claim C3 amended: for every dataset reaching the walk-forward evaluator,
the fold count is `min(5, n / 20)` with NO flooring to 1; when that value is
0 or 1, `TimeSeriesSplit(n_splits=...)` raises instead of degrading
gracefully. -/
theorem foldCount_amended (fit : Fit) (now : String) (samples : List Sample)
    (h : 50 ≤ (samples.filter usable).length) :
    (tssFolds
        (min 5 (((samples.filter usable).filterMap vectorizeSample).length
          / 20))
        ((samples.filter usable).filterMap vectorizeSample).length).length
      = min 5 (((samples.filter usable).filterMap vectorizeSample).length
          / 20) ∧
    (min 5 (((samples.filter usable).filterMap vectorizeSample).length / 20)
        ≤ 1 →
      train fit now (.ok samples) = ⟨.raised, none, none⟩) := by
  refine ⟨tssFolds_length _ _, fun hk => ?_⟩
  have hlt : ¬ (samples.filter usable).length < 50 := Nat.not_lt.mpr h
  simp [train, hlt, hk]

/-- Witness for C3 amended: `cSamples` reaches the evaluator with fold count
0 and `train` ends in an uncaught exception. -/
theorem foldCount_amended_witness :
    50 ≤ (cSamples.filter usable).length ∧
    train fitZero "t" (.ok cSamples) = ⟨.raised, none, none⟩ :=
  ⟨by decide,
    (foldCount_amended fitZero "t" cSamples (by decide)).2 (by decide)⟩

/-- Claim C4: in every fold of the walk-forward split, every training index
is strictly smaller than every test index (training data is chronologically
earlier than test data). -/
theorem walkforward_no_leakage (k n : ℕ) (f : Fold) (hf : f ∈ tssFolds k n)
    (i : ℕ) (hi : i ∈ f.trainIdx) (j : ℕ) (hj : j ∈ f.testIdx) : i < j := by
  simp only [tssFolds, List.mem_map, List.mem_range] at hf
  obtain ⟨t, ht, rfl⟩ := hf
  simp only [List.mem_range] at hi
  simp only [List.mem_map, List.mem_range] at hj
  obtain ⟨o, ho, rfl⟩ := hj
  omega

/-- Witness for C4: the first fold of `tssFolds 2 40` with train index 13
and test index 14. -/
theorem walkforward_no_leakage_witness :
    (fold0 ∈ tssFolds 2 40 ∧ 13 ∈ fold0.trainIdx ∧ 14 ∈ fold0.testIdx) ∧
    13 < 14 :=
  ⟨⟨by decide, by decide, by decide⟩,
    walkforward_no_leakage 2 40 fold0 (by decide) 13 (by decide) 14
      (by decide)⟩

/-- Claim C5: any successfully built feature vector has exactly 16 entries
in the fixed `featureSpec` order; every absent field is filled with its
documented default (50 for rsi14/confidence, 0 otherwise); the
training-time and scoring-time vectorizers agree; and the sample-level
extractor applies the same vectorizer to native and text-encoded maps. -/
theorem vectorizer_order_defaults (m : FeatureMap) (v : List ℚ)
    (h : featVector m = some v) :
    v.length = 16 ∧
    (∀ (i : ℕ) (name : String) (d : ℚ),
      featureSpec.get? i = some (name, d) → fmGet m name = none →
        v.get? i = some d) ∧
    predictVector m = featVector m ∧
    (∀ (b : Bool) (lw : Option LabelV),
      extract_features_from_sample ⟨FeaturesField.map m, b, lw⟩
          = featVector m ∧
      extract_features_from_sample ⟨FeaturesField.text (some m), b, lw⟩
          = featVector m) := by
  rw [featVector_eq_vecOf] at h
  refine ⟨?_, ?_, predictVector_eq_featVector m, fun b lw => ⟨rfl, rfl⟩⟩
  · rw [vecOf_length m featureSpec v h]; rfl
  · exact fun i name d hs ha => vecOf_default m featureSpec v h i name d hs ha

/-- Witness for C5: the empty feature map vectorizes to the 16 defaults. -/
theorem vectorizer_order_defaults_witness :
    featVector ([] : FeatureMap)
      = some [50, 0, 0, 0, 0, 0, 0, 0, 0, 0, 0, 0, 0, 0, 0, 50] ∧
    ([(50 : ℚ), 0, 0, 0, 0, 0, 0, 0, 0, 0, 0, 0, 0, 0, 0, 50]).length
      = 16 :=
  ⟨by decide, (vectorizer_order_defaults ([] : FeatureMap) _ (by decide)).1⟩

/-- Counterexample to C6 as stated: on `aSamples`, 51 samples are complete
and labeled, 1 is dropped at vectorization (50 survive), yet the status file
records `nSamples = 51`, not `51 - 1 = 50`. -/
theorem status_nSamples_cex :
    (aSamples.filter usable).length = 51 ∧
    ((aSamples.filter usable).filterMap vectorizeSample).length = 50 ∧
    (train fitZero "t" (.ok aSamples)).status.map Metrics.nSamples
      = some 51 := by
  decide

theorem train_status_cases (fit : Fit) (now : String)
    (samples : List Sample) :
    (train fit now (.ok samples)).status = none ∨
    ∃ mets, (train fit now (.ok samples)).status = some mets ∧
      mets.nSamples = (samples.filter usable).length := by
  unfold train
  dsimp only
  split
  · left; rfl
  · split
    · left; rfl
    · split
      · left; rfl
      · right; exact ⟨_, rfl, rfl⟩

/-- Claim C6 amended: after every successful `train` run, the `nSamples`
value written to the status file equals the number of complete and labeled
input samples, WITHOUT subtracting the samples dropped by vectorization. -/
theorem status_nSamples_amended (fit : Fit) (now : String)
    (samples : List Sample)
    (h : (train fit now (.ok samples)).status.isSome = true) :
    (train fit now (.ok samples)).status.map Metrics.nSamples
      = some (samples.filter usable).length := by
  rcases train_status_cases fit now samples with hn | ⟨mets, hs, hnum⟩
  · rw [hn] at h; simp at h
  · rw [hs]
    simp [hnum]

/-- Witness for C6 amended: on `aSamples`, a successful run records
`nSamples = 51`, the count of complete+labeled samples. -/
theorem status_nSamples_amended_witness :
    (train fitZero "t" (.ok aSamples)).status.isSome = true ∧
    (train fitZero "t" (.ok aSamples)).status.map Metrics.nSamples
      = some (aSamples.filter usable).length :=
  ⟨by decide, status_nSamples_amended fitZero "t" aSamples (by decide)⟩

/-- Claim C7: when the model artifact file does not exist, `predict` outputs
exactly `{score: 0.5, error: "Model not found"}` and the process exits with
code 0. -/
theorem predict_no_artifact (parse : Option FeatureMap) :
    predictProc none parse = (⟨1/2, some "Model not found"⟩, 0) := rfl

/-- Claim C8: the per-fold metric functions used by `train` yield precision
0 when the predictions contain no positives and recall 0 when the ground
truth contains no positives; both are total `ℚ`-valued functions, so neither
case is an error or NaN. -/
theorem zero_division_metrics (y_true y_pred : List ℤ) :
    ((y_pred.countP fun v => v == 1) = 0 →
      precision_score y_true y_pred = 0) ∧
    ((y_true.countP fun v => v == 1) = 0 →
      recall_score y_true y_pred = 0) := by
  constructor
  · intro h
    have hz : ((y_true.zip y_pred).countP fun p => p.2 == 1) = 0 :=
      Nat.le_zero.mp (h ▸ countP_zip_snd_le y_true y_pred fun v => v == 1)
    simp [precision_score, hz]
  · intro h
    have hz : ((y_true.zip y_pred).countP fun p => p.1 == 1) = 0 :=
      Nat.le_zero.mp (h ▸ countP_zip_fst_le y_true y_pred fun v => v == 1)
    simp [recall_score, hz]

/-- Witness for C8: with truth `[0]` and prediction `[0]` both counts are 0
and both scores evaluate to 0. -/
theorem zero_division_metrics_witness :
    (([0] : List ℤ).countP fun v => v == 1) = 0 ∧
    precision_score [0] [0] = 0 ∧ recall_score [0] [0] = 0 :=
  ⟨by decide, (zero_division_metrics [0] [0]).1 (by decide),
    (zero_division_metrics [0] [0]).2 (by decide)⟩

/-- Claim C9: when the samples file is unreadable or its content is not
valid JSON, `train` ends in an uncaught exception — no structured
`success: false` record, nothing written. -/
theorem train_unreadable_file_raises (fit : Fit) (now : String) :
    train fit now FileRead.fail = ⟨.raised, none, none⟩ ∧
    ∀ e, (train fit now FileRead.fail).result ≠ TrainResult.failed e :=
  ⟨rfl, fun _ h => TrainResult.noConfusion h⟩

/-- Claim C10: the 50-sample minimum is checked before vectorization, so
drops do not re-trigger it: on `bSamples` (60 usable, 11 dropped) the final
model is fitted on 49 < 50 rows, fewer than the reported `nSamples = 60`. -/
theorem min_check_before_vectorization :
    (bSamples.filter usable).length = 60 ∧
    ((train fitZero "t" (.ok bSamples)).artifact.map fun p => p.1.length)
      = some 49 ∧
    (train fitZero "t" (.ok bSamples)).status.map Metrics.nSamples
      = some 60 ∧
    49 < 50 ∧ 49 < 60 := by
  decide

end MLTrainer
